import Mathlib

set_option autoImplicit false

namespace Dyn

/-- JSON-like Python values as they appear in request/response payloads of the
`dyn.tm.services.active_failover` module: `None`, booleans, integers, strings and
nested JSON objects (Python dicts, modelled as insertion-ordered key/value lists). -/
inductive JVal where
  | null : JVal
  | b : Bool → JVal
  | n : Int → JVal
  | s : String → JVal
  | obj : List (String × JVal) → JVal

/-- Python `val is None` check. -/
def JVal.isNull : JVal → Bool
  | .null => true
  | _ => false

/-- Python exception kinds raised by the embedded code paths. -/
inductive PyError where
  | valueError : PyError
  | typeError : PyError
  | attributeError : PyError
  | keyError : PyError
  | validationError : PyError
  deriving DecidableEq, Repr

/-- Dict lookup `d[key]` (first match; Python dicts have unique keys). -/
def alookup {α : Type} : List (String × α) → String → Option α
  | [], _ => none
  | (k, v) :: rest, key => if k = key then some v else alookup rest key

/-- Dict assignment `d[key] = val`: overwrite in place when the key exists,
append otherwise (Python dicts keep insertion order). -/
def ainsert {α : Type} : List (String × α) → String → α → List (String × α)
  | [], key, val => [(key, val)]
  | (k, v) :: rest, key, val =>
    if k = key then (key, val) :: rest else (k, v) :: ainsert rest key val

/-- Dict `d.pop(key)`: the removed value and the remaining dict, or `none` when
the key is absent. -/
def apop {α : Type} : List (String × α) → String → Option (α × List (String × α))
  | [], _ => none
  | (k, v) :: rest, key =>
    if k = key then some (v, rest)
    else
      match apop rest key with
      | some (v1, rest1) => some (v1, (k, v) :: rest1)
      | none => none

theorem alookup_ainsert_self {α : Type} (d : List (String × α)) (k : String) (v : α) :
    alookup (ainsert d k v) k = some v := by
  induction d with
  | nil => simp [ainsert, alookup]
  | cons hd tl ih =>
    obtain ⟨k1, v1⟩ := hd
    by_cases h : k1 = k <;> simp [ainsert, alookup, h, ih]

theorem alookup_ainsert_ne {α : Type} (d : List (String × α)) (k : String) (v : α)
    (key : String) (h : k ≠ key) : alookup (ainsert d k v) key = alookup d key := by
  induction d with
  | nil => simp [ainsert, alookup, h]
  | cons hd tl ih =>
    obtain ⟨k1, v1⟩ := hd
    by_cases h1 : k1 = k <;> simp [ainsert, alookup, h1, h, ih]

/-- The fields a `HealthMonitor` instance carries in its `__dict__` after `__init__`:
the nine probe-configuration fields are stored under underscore-prefixed private names
(`_protocol`, `_interval`, ...); the two back-references `zone` and `fqdn` are stored
under their plain names (source lines 50-61). Unset optional fields hold `None`
(`JVal.null`). Modelled from the spec for the missing `dyn.core.APIObject.__init__`:
the generic base constructor adds no further non-null tracked fields of its own, so
these eleven entries are the whole instance dictionary. -/
structure HealthMonitor where
  protocol : JVal
  interval : JVal
  retries : JVal
  timeout : JVal
  port : JVal
  path : JVal
  host : JVal
  header : JVal
  expected : JVal
  zone : JVal
  fqdn : JVal

/-- `HealthMonitor.__init__` (source lines 28-61): it assigns the private fields
(`self._protocol = protocol`, ...) directly, so the class-level validated attribute
descriptors are never invoked and no exception is raised for any argument values;
`zone` and `fqdn` start out as `None`. The result is wrapped in `Except` to record
that construction always succeeds. -/
def HealthMonitor.init (protocol interval retries timeout port path host header
    expected : JVal) : Except PyError HealthMonitor :=
  .ok { protocol := protocol, interval := interval, retries := retries,
        timeout := timeout, port := port, path := path, host := host,
        header := header, expected := expected, zone := .null, fqdn := .null }

/-- The insertion-ordered `self.__dict__.items()` of a `HealthMonitor`. -/
def HealthMonitor.dict (m : HealthMonitor) : List (String × JVal) :=
  [("_protocol", m.protocol), ("_interval", m.interval), ("_retries", m.retries),
   ("_timeout", m.timeout), ("_port", m.port), ("_path", m.path), ("_host", m.host),
   ("_header", m.header), ("_expected", m.expected), ("zone", m.zone),
   ("fqdn", m.fqdn)]

/-- Python `key.startswith('_')`. -/
def underscored (key : String) : Bool :=
  match key.data with
  | c :: _ => c = '_'
  | [] => false

/-- Python `key[1:]`. -/
def pyTail (key : String) : String :=
  match key.data with
  | _ :: rest => String.mk rest
  | [] => ""

/-- One iteration of the `to_json` serialization loop (source lines 78-81):
`if val is not None and not hasattr(val, '__call__') and key.startswith('_'):
json_blob[key[1:]] = val`. Tracked field values in the model are plain data,
never callables, so the `hasattr(val, '__call__')` test is always false. -/
def addField (blob : List (String × JVal)) (key : String) (val : JVal) :
    List (String × JVal) :=
  if !val.isNull && underscored key then ainsert blob (pyTail key) val else blob

/-- `HealthMonitor.to_json` (source lines 74-82): start from
`{'protocol': self.protocol, 'interval': self.interval}` (the descriptors read the
private `_protocol`/`_interval` slots) and fold the serialization loop over
`self.__dict__.items()`. -/
def HealthMonitor.to_json (m : HealthMonitor) : List (String × JVal) :=
  let json_blob := [("protocol", m.protocol), ("interval", m.interval)]
  m.dict.foldl (fun blob kv => addField blob kv.1 kv.2) json_blob

/-- Conditional insertion: what `addField` does once the key is known to be an
underscore-prefixed private name. -/
def serializeOpt (blob : List (String × JVal)) (key : String) (v : JVal) :
    List (String × JVal) :=
  if v.isNull then blob else ainsert blob key v

theorem addField_uprotocol (blob : List (String × JVal)) (v : JVal) :
    addField blob "_protocol" v = serializeOpt blob "protocol" v := by
  cases v <;> rfl

theorem addField_uinterval (blob : List (String × JVal)) (v : JVal) :
    addField blob "_interval" v = serializeOpt blob "interval" v := by
  cases v <;> rfl

theorem addField_uretries (blob : List (String × JVal)) (v : JVal) :
    addField blob "_retries" v = serializeOpt blob "retries" v := by
  cases v <;> rfl

theorem addField_utimeout (blob : List (String × JVal)) (v : JVal) :
    addField blob "_timeout" v = serializeOpt blob "timeout" v := by
  cases v <;> rfl

theorem addField_uport (blob : List (String × JVal)) (v : JVal) :
    addField blob "_port" v = serializeOpt blob "port" v := by
  cases v <;> rfl

theorem addField_upath (blob : List (String × JVal)) (v : JVal) :
    addField blob "_path" v = serializeOpt blob "path" v := by
  cases v <;> rfl

theorem addField_uhost (blob : List (String × JVal)) (v : JVal) :
    addField blob "_host" v = serializeOpt blob "host" v := by
  cases v <;> rfl

theorem addField_uheader (blob : List (String × JVal)) (v : JVal) :
    addField blob "_header" v = serializeOpt blob "header" v := by
  cases v <;> rfl

theorem addField_uexpected (blob : List (String × JVal)) (v : JVal) :
    addField blob "_expected" v = serializeOpt blob "expected" v := by
  cases v <;> rfl

theorem addField_zone (blob : List (String × JVal)) (v : JVal) :
    addField blob "zone" v = blob := by
  cases v <;> rfl

theorem addField_fqdn (blob : List (String × JVal)) (v : JVal) :
    addField blob "fqdn" v = blob := by
  cases v <;> rfl

/-- Closed form of `to_json`: the initial blob followed by one conditional
insertion per private field; the `zone`/`fqdn` entries contribute nothing because
their keys carry no underscore. -/
theorem to_json_eval (m : HealthMonitor) :
    m.to_json =
      serializeOpt (serializeOpt (serializeOpt (serializeOpt (serializeOpt
        (serializeOpt (serializeOpt (serializeOpt (serializeOpt
          [("protocol", m.protocol), ("interval", m.interval)]
          "protocol" m.protocol) "interval" m.interval) "retries" m.retries)
          "timeout" m.timeout) "port" m.port) "path" m.path) "host" m.host)
          "header" m.header) "expected" m.expected := by
  simp only [HealthMonitor.to_json, HealthMonitor.dict, List.foldl,
    addField_uprotocol, addField_uinterval, addField_uretries, addField_utimeout,
    addField_uport, addField_upath, addField_uhost, addField_uheader,
    addField_uexpected, addField_zone, addField_fqdn]

theorem alookup_serializeOpt_ne (blob : List (String × JVal)) (key : String)
    (v : JVal) (key1 : String) (h : key ≠ key1) :
    alookup (serializeOpt blob key v) key1 = alookup blob key1 := by
  unfold serializeOpt
  by_cases hv : v.isNull <;> simp [hv, alookup_ainsert_ne _ _ _ _ h]

theorem alookup_serializeOpt_self (blob : List (String × JVal)) (key : String)
    (v : JVal) (h : alookup blob key = none) :
    alookup (serializeOpt blob key v) key =
      if v.isNull then none else some v := by
  unfold serializeOpt
  by_cases hv : v.isNull <;> simp [hv, h, alookup_ainsert_self]

theorem alookup_serializeOpt_same (blob : List (String × JVal)) (key : String)
    (v : JVal) (h : alookup blob key = some v) :
    alookup (serializeOpt blob key v) key = some v := by
  unfold serializeOpt
  by_cases hv : v.isNull <;> simp [hv, h, alookup_ainsert_self]

/-- Python `str()` rendering as used by `'/Failover/{0}/{1}/'.format(zone, fqdn)`. -/
def JVal.pystr : JVal → String
  | .null => "None"
  | .b true => "True"
  | .b false => "False"
  | .n i => toString i
  | .s str => str
  | .obj _ => "<dict>"

/-- `HealthMonitor.uri` (source lines 84-88): the status-query path when both
back-references are populated, a `ValueError` otherwise. -/
def HealthMonitor.uri (m : HealthMonitor) : Except PyError String :=
  if !m.zone.isNull && !m.fqdn.isNull then
    .ok ("/Failover/" ++ m.zone.pystr ++ "/" ++ m.fqdn.pystr ++ "/")
  else .error .valueError

/-- `HealthMonitor.status` (source lines 90-96):
`DynectSession.get_session().execute(self.uri, 'GET')` evaluates `self.uri` first,
so when `zone`/`fqdn` are unset the ValueError is raised before any request goes
out. The session's GET is modelled by passing in the parsed response body; the
result pairs the path the GET was issued against with `response['data']['status']`. -/
def HealthMonitor.status (m : HealthMonitor) (response : List (String × JVal)) :
    Except PyError (String × JVal) :=
  match m.uri with
  | .error e => .error e
  | .ok u =>
    match alookup response "data" with
    | some (.obj d) =>
      match alookup d "status" with
      | some v => .ok (u, v)
      | none => .error .keyError
    | some _ => .error .typeError
    | none => .error .keyError

/-- C6: `to_json()` always contains the keys `protocol` and `interval` (bound to the
tracked protocol/interval values), contains each other tracked field under its
unprefixed key exactly when that field is non-null, and omits every unset (`None`)
field. -/
theorem to_json_field_spec (m : HealthMonitor) :
    alookup m.to_json "protocol" = some m.protocol ∧
    alookup m.to_json "interval" = some m.interval ∧
    alookup m.to_json "retries" =
      (if m.retries.isNull then none else some m.retries) ∧
    alookup m.to_json "timeout" =
      (if m.timeout.isNull then none else some m.timeout) ∧
    alookup m.to_json "port" = (if m.port.isNull then none else some m.port) ∧
    alookup m.to_json "path" = (if m.path.isNull then none else some m.path) ∧
    alookup m.to_json "host" = (if m.host.isNull then none else some m.host) ∧
    alookup m.to_json "header" =
      (if m.header.isNull then none else some m.header) ∧
    alookup m.to_json "expected" =
      (if m.expected.isNull then none else some m.expected) := by
  rw [to_json_eval]
  refine ⟨?_, ?_, ?_, ?_, ?_, ?_, ?_, ?_, ?_⟩
  · rw [alookup_serializeOpt_ne _ _ _ _ (by decide),
      alookup_serializeOpt_ne _ _ _ _ (by decide),
      alookup_serializeOpt_ne _ _ _ _ (by decide),
      alookup_serializeOpt_ne _ _ _ _ (by decide),
      alookup_serializeOpt_ne _ _ _ _ (by decide),
      alookup_serializeOpt_ne _ _ _ _ (by decide),
      alookup_serializeOpt_ne _ _ _ _ (by decide),
      alookup_serializeOpt_ne _ _ _ _ (by decide),
      alookup_serializeOpt_same _ _ _ (by rfl)]
  · rw [alookup_serializeOpt_ne _ _ _ _ (by decide),
      alookup_serializeOpt_ne _ _ _ _ (by decide),
      alookup_serializeOpt_ne _ _ _ _ (by decide),
      alookup_serializeOpt_ne _ _ _ _ (by decide),
      alookup_serializeOpt_ne _ _ _ _ (by decide),
      alookup_serializeOpt_ne _ _ _ _ (by decide),
      alookup_serializeOpt_ne _ _ _ _ (by decide),
      alookup_serializeOpt_same _ _ _
        (by rw [alookup_serializeOpt_ne _ _ _ _ (by decide)]; rfl)]
  · rw [alookup_serializeOpt_ne _ _ _ _ (by decide),
      alookup_serializeOpt_ne _ _ _ _ (by decide),
      alookup_serializeOpt_ne _ _ _ _ (by decide),
      alookup_serializeOpt_ne _ _ _ _ (by decide),
      alookup_serializeOpt_ne _ _ _ _ (by decide),
      alookup_serializeOpt_ne _ _ _ _ (by decide),
      alookup_serializeOpt_self _ _ _
        (by rw [alookup_serializeOpt_ne _ _ _ _ (by decide),
                alookup_serializeOpt_ne _ _ _ _ (by decide)]; rfl)]
  · rw [alookup_serializeOpt_ne _ _ _ _ (by decide),
      alookup_serializeOpt_ne _ _ _ _ (by decide),
      alookup_serializeOpt_ne _ _ _ _ (by decide),
      alookup_serializeOpt_ne _ _ _ _ (by decide),
      alookup_serializeOpt_ne _ _ _ _ (by decide),
      alookup_serializeOpt_self _ _ _
        (by rw [alookup_serializeOpt_ne _ _ _ _ (by decide),
                alookup_serializeOpt_ne _ _ _ _ (by decide),
                alookup_serializeOpt_ne _ _ _ _ (by decide)]; rfl)]
  · rw [alookup_serializeOpt_ne _ _ _ _ (by decide),
      alookup_serializeOpt_ne _ _ _ _ (by decide),
      alookup_serializeOpt_ne _ _ _ _ (by decide),
      alookup_serializeOpt_ne _ _ _ _ (by decide),
      alookup_serializeOpt_self _ _ _
        (by rw [alookup_serializeOpt_ne _ _ _ _ (by decide),
                alookup_serializeOpt_ne _ _ _ _ (by decide),
                alookup_serializeOpt_ne _ _ _ _ (by decide),
                alookup_serializeOpt_ne _ _ _ _ (by decide)]; rfl)]
  · rw [alookup_serializeOpt_ne _ _ _ _ (by decide),
      alookup_serializeOpt_ne _ _ _ _ (by decide),
      alookup_serializeOpt_ne _ _ _ _ (by decide),
      alookup_serializeOpt_self _ _ _
        (by rw [alookup_serializeOpt_ne _ _ _ _ (by decide),
                alookup_serializeOpt_ne _ _ _ _ (by decide),
                alookup_serializeOpt_ne _ _ _ _ (by decide),
                alookup_serializeOpt_ne _ _ _ _ (by decide),
                alookup_serializeOpt_ne _ _ _ _ (by decide)]; rfl)]
  · rw [alookup_serializeOpt_ne _ _ _ _ (by decide),
      alookup_serializeOpt_ne _ _ _ _ (by decide),
      alookup_serializeOpt_self _ _ _
        (by rw [alookup_serializeOpt_ne _ _ _ _ (by decide),
                alookup_serializeOpt_ne _ _ _ _ (by decide),
                alookup_serializeOpt_ne _ _ _ _ (by decide),
                alookup_serializeOpt_ne _ _ _ _ (by decide),
                alookup_serializeOpt_ne _ _ _ _ (by decide),
                alookup_serializeOpt_ne _ _ _ _ (by decide)]; rfl)]
  · rw [alookup_serializeOpt_ne _ _ _ _ (by decide),
      alookup_serializeOpt_self _ _ _
        (by rw [alookup_serializeOpt_ne _ _ _ _ (by decide),
                alookup_serializeOpt_ne _ _ _ _ (by decide),
                alookup_serializeOpt_ne _ _ _ _ (by decide),
                alookup_serializeOpt_ne _ _ _ _ (by decide),
                alookup_serializeOpt_ne _ _ _ _ (by decide),
                alookup_serializeOpt_ne _ _ _ _ (by decide),
                alookup_serializeOpt_ne _ _ _ _ (by decide)]; rfl)]
  · rw [alookup_serializeOpt_self _ _ _
        (by rw [alookup_serializeOpt_ne _ _ _ _ (by decide),
                alookup_serializeOpt_ne _ _ _ _ (by decide),
                alookup_serializeOpt_ne _ _ _ _ (by decide),
                alookup_serializeOpt_ne _ _ _ _ (by decide),
                alookup_serializeOpt_ne _ _ _ _ (by decide),
                alookup_serializeOpt_ne _ _ _ _ (by decide),
                alookup_serializeOpt_ne _ _ _ _ (by decide),
                alookup_serializeOpt_ne _ _ _ _ (by decide)]; rfl)]

/-- C9: the `zone`/`fqdn` back-references never appear in `to_json()` output — the
serialization is entirely independent of them (their `__dict__` keys carry no
underscore prefix, so the loop skips them), and no `zone`/`fqdn` key occurs in the
result, populated or not. -/
theorem to_json_omits_backrefs (m : HealthMonitor) (z f : JVal) :
    ({ m with zone := z, fqdn := f } : HealthMonitor).to_json = m.to_json ∧
    alookup m.to_json "zone" = none ∧
    alookup m.to_json "fqdn" = none := by
  refine ⟨by rw [to_json_eval, to_json_eval], ?_, ?_⟩
  · rw [to_json_eval,
      alookup_serializeOpt_ne _ _ _ _ (by decide),
      alookup_serializeOpt_ne _ _ _ _ (by decide),
      alookup_serializeOpt_ne _ _ _ _ (by decide),
      alookup_serializeOpt_ne _ _ _ _ (by decide),
      alookup_serializeOpt_ne _ _ _ _ (by decide),
      alookup_serializeOpt_ne _ _ _ _ (by decide),
      alookup_serializeOpt_ne _ _ _ _ (by decide),
      alookup_serializeOpt_ne _ _ _ _ (by decide),
      alookup_serializeOpt_ne _ _ _ _ (by decide)]
    rfl
  · rw [to_json_eval,
      alookup_serializeOpt_ne _ _ _ _ (by decide),
      alookup_serializeOpt_ne _ _ _ _ (by decide),
      alookup_serializeOpt_ne _ _ _ _ (by decide),
      alookup_serializeOpt_ne _ _ _ _ (by decide),
      alookup_serializeOpt_ne _ _ _ _ (by decide),
      alookup_serializeOpt_ne _ _ _ _ (by decide),
      alookup_serializeOpt_ne _ _ _ _ (by decide),
      alookup_serializeOpt_ne _ _ _ _ (by decide),
      alookup_serializeOpt_ne _ _ _ _ (by decide)]
    rfl

/-- C7: reading `status` with `zone` or `fqdn` unset raises ValueError before any
request is made; with both populated it issues the GET against
`/Failover/{zone}/{fqdn}/` and returns the `status` field of the response body's
`data`. -/
theorem status_spec (m : HealthMonitor) (response d : List (String × JVal))
    (z f : String) (sv : JVal)
    (hd : alookup response "data" = some (.obj d))
    (hs : alookup d "status" = some sv) :
    ((m.zone.isNull || m.fqdn.isNull) = true →
       m.status response = .error .valueError) ∧
    (m.zone = .s z → m.fqdn = .s f →
       m.status response = .ok ("/Failover/" ++ z ++ "/" ++ f ++ "/", sv)) := by
  constructor
  · intro h
    have hc : (!m.zone.isNull && !m.fqdn.isNull) = false := by
      rcases Bool.or_eq_true_iff.mp h with h1 | h1 <;> simp [h1]
    simp [HealthMonitor.status, HealthMonitor.uri, hc]
  · intro hz hf
    simp [HealthMonitor.status, HealthMonitor.uri, hz, hf, JVal.isNull, hd, hs,
      JVal.pystr]

/-- Concrete monitor with populated back-references, for the C7 witness. -/
def hmW : HealthMonitor :=
  { protocol := .s "HTTP", interval := .n 5, retries := .null, timeout := .null,
    port := .null, path := .null, host := .null, header := .null,
    expected := .null, zone := .s "example.com", fqdn := .s "www.example.com" }

/-- Concrete GET response body for the C7 witness. -/
def respW : List (String × JVal) := [("data", .obj [("status", .s "up")])]

/-- Witness for C7: at a concrete populated monitor and concrete response, `status`
returns the path and status value the theorem predicts. -/
theorem status_spec_witness :
    hmW.status respW = .ok ("/Failover/example.com/www.example.com/", .s "up") :=
  (status_spec hmW respW [("status", .s "up")] "example.com" "www.example.com"
      (.s "up") rfl rfl).2 rfl rfl

/-- Python `==` as used by the membership test `value in validator`. Validator
tuples hold only flat string/integer constants, so dict comparison never arises
and is not modelled; Python numeric equality identifies booleans with 0/1. -/
def JVal.pyEq : JVal → JVal → Bool
  | .null, .null => true
  | .b a, .b c => a == c
  | .b a, .n c => (if a then (1 : Int) else 0) == c
  | .n a, .b c => a == (if c then (1 : Int) else 0)
  | .n a, .n c => a == c
  | .s a, .s c => a == c
  | _, _ => false

/-- Python `value in tup` over a tuple of constants. -/
def pyMem (v : JVal) (tup : List JVal) : Bool := tup.any (fun e => JVal.pyEq v e)

/-- Validator tuple of the `protocol` class attribute (source lines 16-18). -/
def protocolValidator : List JVal :=
  [.s "HTTP", .s "HTTPS", .s "PING", .s "SMTP", .s "TCP"]

/-- Validator tuple of the `interval` class attribute (source line 19). -/
def intervalValidator : List JVal := [.n 1, .n 5, .n 10, .n 15]

/-- Validator tuple of the `timeout` class attribute (source line 21). -/
def timeoutValidator : List JVal := [.n 10, .n 15, .n 25, .n 30]

/-- Modelled from the spec: the shared `ValidatedAttribute` descriptor
(`dyn.core`, not under `src/`) runs on public attribute assignment; a value
outside the enumerated validator tuple fails immediately with a validation
error, and a member is stored as is. -/
def ValidatedAttribute.set (validator : List JVal) (value : JVal) :
    Except PyError JVal :=
  if pyMem value validator then .ok value else .error .validationError

/-- Local state of an `ActiveFailover` service object. `zone`/`fqdn` are the
immutable identity keys fixed at construction; the remaining tracked fields
mirror the class attributes (source lines 117-131). `active` holds the
`Active` wrapper last rebuilt from a response (`none` before that). -/
structure ActiveFailover where
  zone : String
  fqdn : String
  address : JVal
  failover_mode : JVal
  failover_data : JVal
  monitor : HealthMonitor
  contact_nickname : JVal
  auto_recover : JVal
  notify_events : JVal
  syslog_server : JVal
  syslog_port : JVal
  syslog_ident : JVal
  syslog_facility : JVal
  ttl : JVal
  active : Option Bool

/-- The resource path `'/Failover/{zone}/{fqdn}/'` fixed by `__init__`
(source lines 114 and 161). -/
def ActiveFailover.uriOf (zone fqdn : String) : String :=
  "/Failover/" ++ zone ++ "/" ++ fqdn ++ "/"

/-- `ActiveFailover.api_args` (source lines 206-214): the mandatory payload
recomputed from current field values on each access, with the owned monitor
serialized via `to_json()`. -/
def ActiveFailover.api_args (afo : ActiveFailover) : List (String × JVal) :=
  [("address", afo.address), ("failover_mode", afo.failover_mode),
   ("failover_data", afo.failover_data), ("monitor", .obj afo.monitor.to_json),
   ("contact_nickname", afo.contact_nickname)]

/-- A value passed as a keyword argument to `_update`: a JSON value, a live
`HealthMonitor` object, or a Python list of strings (as `notify_events` is). -/
inductive Arg where
  | v : JVal → Arg
  | mon : HealthMonitor → Arg
  | strs : List String → Arg

/-- `api_args['monitor'].to_json()` (source line 190): only a `HealthMonitor`
object has a `to_json` method; any other value raises AttributeError. -/
def serializeMonitorArg : Arg → Except PyError Arg
  | .mon m => .ok (.v (.obj m.to_json))
  | _ => .error .attributeError

/-- `', '.join(api_args['notify_events'])` (source line 192): joins a list of
strings; joining a string joins its characters; anything else raises TypeError. -/
def joinNotify : Arg → Except PyError Arg
  | .strs xs => .ok (.v (.s (String.intercalate ", " xs)))
  | .v (.s str) =>
    .ok (.v (.s (String.intercalate ", " (str.data.map Char.toString))))
  | _ => .error .typeError

/-- Python tuple unpacking `key, val = k` of a string `k`: succeeds only when
the string has exactly two characters, otherwise raises ValueError. -/
def unpackPair (k : String) : Except PyError (String × String) :=
  match k.data with
  | [c1, c2] => .ok (c1.toString, c2.toString)
  | _ => .error .valueError

/-- The merge loop of `ActiveFailover._update` (source lines 193-195):
`for key, val in self.api_args:` iterates the KEYS of the `api_args` dict
(no `.items()` call), so each iteration tuple-unpacks a key string into
`key, val` before the `if key not in api_args: api_args[key] = val` body. -/
def mergeKeys : List String → List (String × Arg) →
    Except PyError (List (String × Arg))
  | [], args => .ok args
  | k :: rest, args =>
    match unpackPair k with
    | .error e => .error e
    | .ok (key, val) =>
      mergeKeys rest
        (if (alookup args key).isSome then args else ainsert args key (.v (.s val)))

/-- `ActiveFailover._update` (source lines 188-196): serialize a `monitor`
argument via `to_json()`, join a `notify_events` argument with `', '`, run the
merge loop over `self.api_args`, then delegate. Modelled from the spec for the
missing generic `APIObject._update`: the delegate submits the final argument
dict as the request payload, which the model returns on success. -/
def ActiveFailover._update (afo : ActiveFailover)
    (api_args : List (String × Arg)) : Except PyError (List (String × Arg)) :=
  let step1 : Except PyError (List (String × Arg)) :=
    match alookup api_args "monitor" with
    | some a =>
      match serializeMonitorArg a with
      | .ok a1 => .ok (ainsert api_args "monitor" a1)
      | .error e => .error e
    | none => .ok api_args
  match step1 with
  | .error e => .error e
  | .ok args1 =>
    let step2 : Except PyError (List (String × Arg)) :=
      match alookup args1 "notify_events" with
      | some a =>
        match joinNotify a with
        | .ok a1 => .ok (ainsert args1 "notify_events" a1)
        | .error e => .error e
      | none => .ok args1
    match step2 with
    | .error e => .error e
    | .ok args2 => mergeKeys (afo.api_args.map Prod.fst) args2

theorem mergeKeys_mandatory_raises (args : List (String × Arg)) :
    mergeKeys ["address", "failover_mode", "failover_data", "monitor",
               "contact_nickname"] args = .error .valueError := rfl

/-- C1: `_update` never submits any payload — for every state and every argument
set it raises before delegating. The merge loop iterates the `api_args` dict
itself rather than `.items()`, so Python tuple-unpacks the key string
`'address'` (7 characters) into two variables and raises ValueError (unless the
monitor/notify_events pre-serialization raised first). The claimed merging of
mandatory fields into a complete payload therefore never happens. -/
theorem update_always_raises (afo : ActiveFailover)
    (args : List (String × Arg)) : (afo._update args).isOk = false := by
  unfold ActiveFailover._update
  rw [show afo.api_args.map Prod.fst =
        ["address", "failover_mode", "failover_data", "monitor",
         "contact_nickname"] from rfl]
  repeat' split
  all_goals simp only [mergeKeys_mandatory_raises]
  all_goals (repeat' split)
  all_goals rfl

/-- Concrete monitor used in concrete evaluations. -/
def hm0 : HealthMonitor :=
  { protocol := .s "HTTP", interval := .n 5, retries := .null, timeout := .null,
    port := .null, path := .null, host := .null, header := .null,
    expected := .null, zone := .null, fqdn := .null }

/-- Concrete fully-populated ActiveFailover used in concrete evaluations. -/
def afo0 : ActiveFailover :=
  { zone := "example.com", fqdn := "www.example.com", address := .s "1.2.3.4",
    failover_mode := .s "ip", failover_data := .s "5.6.7.8", monitor := hm0,
    contact_nickname := .s "owner", auto_recover := .null,
    notify_events := .null, syslog_server := .null, syslog_port := .null,
    syslog_ident := .null, syslog_facility := .null, ttl := .null,
    active := none }

/-- C2 (code-bug evaluation): the pre-serialization steps do produce the claimed
forms — `', '.join(['ip', 'svc'])` is `"ip, svc"` and a monitor argument becomes
its `to_json()` mapping — but `update` then raises ValueError in the merge loop
before any request goes out, so no outgoing payload ever carries them. -/
theorem update_serialization_cex :
    joinNotify (.strs ["ip", "svc"]) = .ok (.v (.s "ip, svc")) ∧
    serializeMonitorArg (.mon hm0) =
      .ok (.v (.obj [("protocol", .s "HTTP"), ("interval", .n 5)])) ∧
    afo0._update [("notify_events", .strs ["ip", "svc"])] =
      .error .valueError ∧
    afo0._update [("monitor", .mon hm0), ("notify_events", .strs ["ip", "svc"])]
      = .error .valueError :=
  ⟨rfl, rfl, rfl, rfl⟩

/-- C3 counterexample: constructing a `HealthMonitor` with protocol `'BOGUS'`
(outside {HTTP, HTTPS, PING, SMTP, TCP}) and interval `7` (outside {1, 5, 10, 15})
succeeds and raises nothing — `__init__` writes the private slots directly and the
validated descriptors never run — refuting the claim that construction fails for
every value outside the enumerated sets. -/
theorem init_bypasses_validation_cex :
    HealthMonitor.init (.s "BOGUS") (.n 7) .null .null .null .null .null .null
        .null
      = .ok { protocol := .s "BOGUS", interval := .n 7, retries := .null,
              timeout := .null, port := .null, path := .null, host := .null,
              header := .null, expected := .null, zone := .null,
              fqdn := .null } ∧
    pyMem (.s "BOGUS") protocolValidator = false ∧
    pyMem (.n 7) intervalValidator = false :=
  ⟨rfl, by decide, by decide⟩

/-- C3 (amended): construction succeeds for every protocol/interval/timeout value
— valid or not — because `__init__` bypasses the descriptors; assignment through
the validated `protocol`/`interval`/`timeout` descriptors succeeds exactly on the
enumerated values and fails with a validation error on everything else. -/
theorem validated_attribute_spec (v : JVal) :
    (∀ i r t p pa h hd e,
       (HealthMonitor.init v i r t p pa h hd e).isOk = true) ∧
    ((ValidatedAttribute.set protocolValidator v).isOk = true ↔
       pyMem v protocolValidator = true) ∧
    ((ValidatedAttribute.set intervalValidator v).isOk = true ↔
       pyMem v intervalValidator = true) ∧
    ((ValidatedAttribute.set timeoutValidator v).isOk = true ↔
       pyMem v timeoutValidator = true) := by
  refine ⟨fun i r t p pa h hd e => rfl, ?_, ?_, ?_⟩ <;>
    · rw [ValidatedAttribute.set]
      split <;> simp_all [Except.isOk, Except.toBool]

/-- Python values that can be assigned to the `active` property: strings,
booleans and integers are the shapes the `('N', False)` / `('Y', True)`
membership tests distinguish. -/
inductive PyVal where
  | str : String → PyVal
  | boolean : Bool → PyVal
  | int : Int → PyVal
  deriving DecidableEq, Repr

/-- Python `==` between a candidate value and a member of the
activate/deactivate tuples (numeric equality identifies booleans with 0/1). -/
def pyEq : PyVal → PyVal → Bool
  | .str a, .str c => a == c
  | .boolean a, .boolean c => a == c
  | .boolean a, .int c => (if a then (1 : Int) else 0) == c
  | .int a, .boolean c => a == (if c then (1 : Int) else 0)
  | .int a, .int c => a == c
  | _, _ => false

/-- Python `value in tup`. -/
def pyIn (v : PyVal) (tup : List PyVal) : Bool := tup.any (pyEq v)

/-- The tuple `deactivate = ('N', False)` of the `active` setter (source
line 231). -/
def deactivateTuple : List PyVal := [.str "N", .boolean false]

/-- The tuple `activate = ('Y', True)` of the `active` setter (source
line 232). -/
def activateTuple : List PyVal := [.str "Y", .boolean true]

/-- Observable calls an `active` assignment makes: `Ev.get` for each fresh
fetch done by reading `self.active`, and one event per `activate()` /
`deactivate()` invocation. -/
inductive Ev where
  | get : Ev
  | activateCall : Ev
  | deactivateCall : Ev
  deriving DecidableEq, Repr

/-- The `active` property setter (source lines 229-236), as the trace of calls
it performs. Each appearance of `self.active` in a condition runs the getter
(source lines 216-228), which does a fresh `_get` — one `Ev.get` — and returns
the `Active` wrapper; modelled from the spec for the missing `dyn.tm.utils.Active`:
the wrapper is truthy exactly when the service is active. `remote` is the
service-side active state those reads return (stable across the assignment).
Python's `and` short-circuits, so a read only happens when the preceding
membership test held. -/
def ActiveFailover.active_set (value : PyVal) (remote : Bool) : List Ev :=
  if pyIn value deactivateTuple then
    if remote then [.get, .deactivateCall]
    else if pyIn value activateTuple then
      if !remote then [.get, .get, .activateCall] else [.get, .get]
    else [.get]
  else if pyIn value activateTuple then
    if !remote then [.get, .activateCall] else [.get]
  else []

theorem pyIn_deactivate_not_activate (v : PyVal)
    (h : pyIn v deactivateTuple = true) : pyIn v activateTuple = false := by
  cases v <;> simp_all [pyIn, pyEq, deactivateTuple, activateTuple]

theorem pyIn_activate_not_deactivate (v : PyVal)
    (h : pyIn v activateTuple = true) : pyIn v deactivateTuple = false := by
  cases v <;> simp_all [pyIn, pyEq, deactivateTuple, activateTuple]

/-- C5: for every recognized assignment value, an `active` assignment performs
exactly one fresh read and at most one write call; assigning an
activation value when already active, or a deactivation value when already
inactive, performs no write; on an actual transition exactly one `activate()`
(resp. `deactivate()`) call is made. -/
theorem active_set_spec (v : PyVal) (remote : Bool)
    (hv : pyIn v activateTuple = true ∨ pyIn v deactivateTuple = true) :
    (ActiveFailover.active_set v remote).count .get = 1 ∧
    (ActiveFailover.active_set v remote).count .activateCall +
      (ActiveFailover.active_set v remote).count .deactivateCall ≤ 1 ∧
    (pyIn v activateTuple = true →
       ActiveFailover.active_set v remote =
         if remote then [.get] else [.get, .activateCall]) ∧
    (pyIn v deactivateTuple = true →
       ActiveFailover.active_set v remote =
         if remote then [.get, .deactivateCall] else [.get]) := by
  rcases hv with ha | hd
  · have hd : pyIn v deactivateTuple = false := pyIn_activate_not_deactivate v ha
    unfold ActiveFailover.active_set
    cases remote <;> simp [ha, hd, List.count_cons]
  · have ha : pyIn v activateTuple = false := pyIn_deactivate_not_activate v hd
    unfold ActiveFailover.active_set
    cases remote <;> simp [ha, hd, List.count_cons]

/-- Witness for C5: assigning `True` while the fetched state is inactive yields
exactly one read followed by one `activate()` call. -/
theorem active_set_spec_witness :
    (ActiveFailover.active_set (.boolean true) false).count .get = 1 ∧
    (ActiveFailover.active_set (.boolean true) false).count .activateCall +
      (ActiveFailover.active_set (.boolean true) false).count .deactivateCall
      ≤ 1 ∧
    (pyIn (.boolean true) activateTuple = true →
       ActiveFailover.active_set (.boolean true) false =
         if false then [.get] else [.get, .activateCall]) ∧
    (pyIn (.boolean true) deactivateTuple = true →
       ActiveFailover.active_set (.boolean true) false =
         if false then [.get, .deactivateCall] else [.get]) :=
  active_set_spec (.boolean true) false (Or.inl (by decide))

/-- C10: assigning any value outside both recognized tuples — not `==` to `'Y'`
or `True` and not `==` to `'N'` or `False` — raises nothing, performs no read
(both `and` conditions short-circuit before `self.active` is evaluated) and no
write: the assignment is silently ignored. -/
theorem active_set_unrecognized (v : PyVal) (remote : Bool)
    (h1 : pyIn v deactivateTuple = false)
    (h2 : pyIn v activateTuple = false) :
    ActiveFailover.active_set v remote = [] := by
  unfold ActiveFailover.active_set
  simp [h1, h2]

/-- Witness for C10: assigning the string `'yes'` is silently ignored. -/
theorem active_set_unrecognized_witness :
    ActiveFailover.active_set (.str "yes") true = [] :=
  active_set_unrecognized (.str "yes") true (by decide) (by decide)

/-- Modelled from the spec: `dyn.tm.utils.Active` (not under `src/`) wraps the
API's active flag as a boolean-like state, truthy exactly for `'Y'`/`True`. -/
def Active.ofVal : JVal → Bool
  | .s str => str == "Y"
  | .b b1 => b1
  | _ => false

/-- Keyword names accepted by `HealthMonitor.__init__` (source lines 28-29). -/
def hmKwargKeys : List String :=
  ["protocol", "interval", "retries", "timeout", "port", "path", "host",
   "header", "expected"]

/-- `HealthMonitor(**d)` as performed by `_build` (source line 201): keyword
application of the source constructor. An unexpected keyword or a missing
required `protocol`/`interval` raises TypeError; otherwise `__init__` stores the
given values, optional fields default to `None`, and the back-references start
unset. -/
def HealthMonitor.fromKwargs (d : List (String × JVal)) :
    Except PyError HealthMonitor :=
  if d.all (fun kv => kv.1 ∈ hmKwargKeys) then
    match alookup d "protocol", alookup d "interval" with
    | some p, some i =>
      .ok { protocol := p, interval := i,
            retries := (alookup d "retries").getD .null,
            timeout := (alookup d "timeout").getD .null,
            port := (alookup d "port").getD .null,
            path := (alookup d "path").getD .null,
            host := (alookup d "host").getD .null,
            header := (alookup d "header").getD .null,
            expected := (alookup d "expected").getD .null,
            zone := .null, fqdn := .null }
    | _, _ => .error .typeError
  else .error .typeError

/-- Modelled from the spec: the generic `APIObject._build` ("all other fields
pass through the generic base's build logic") assigns each remaining response
key to the correspondingly named tracked field; `zone`/`fqdn` are immutable
identity keys, and a key matching no tracked field has no tracked effect. -/
def ActiveFailover.setField (afo : ActiveFailover) (k : String) (v : JVal) :
    ActiveFailover :=
  if k = "address" then { afo with address := v }
  else if k = "failover_mode" then { afo with failover_mode := v }
  else if k = "failover_data" then { afo with failover_data := v }
  else if k = "contact_nickname" then { afo with contact_nickname := v }
  else if k = "auto_recover" then { afo with auto_recover := v }
  else if k = "notify_events" then { afo with notify_events := v }
  else if k = "syslog_server" then { afo with syslog_server := v }
  else if k = "syslog_port" then { afo with syslog_port := v }
  else if k = "syslog_ident" then { afo with syslog_ident := v }
  else if k = "syslog_facility" then { afo with syslog_facility := v }
  else if k = "ttl" then { afo with ttl := v }
  else afo

/-- The base build pass over the remaining response entries. -/
def ActiveFailover.baseBuild (afo : ActiveFailover)
    (data : List (String × JVal)) : ActiveFailover :=
  data.foldl (fun a kv => a.setField kv.1 kv.2) afo

/-- The `active` step of `_build` (source lines 202-203) followed by the base
build pass: `if 'active' in data: self._active = Active(data.pop('active'))`. -/
def ActiveFailover.buildActive (afo : ActiveFailover)
    (data : List (String × JVal)) : ActiveFailover :=
  match apop data "active" with
  | some (v, rest) =>
    ActiveFailover.baseBuild { afo with active := some (Active.ofVal v) } rest
  | none => ActiveFailover.baseBuild afo data

/-- `ActiveFailover._build` (source lines 198-204): pop a `monitor` sub-object
into a freshly constructed `HealthMonitor` (replacing the owned one), pop an
`active` value into the `Active` wrapper, then run the base build. -/
def ActiveFailover._build (afo : ActiveFailover) (data : List (String × JVal)) :
    Except PyError ActiveFailover :=
  match apop data "monitor" with
  | some (.obj sub, rest) =>
    match HealthMonitor.fromKwargs sub with
    | .ok m => .ok (ActiveFailover.buildActive { afo with monitor := m } rest)
    | .error e => .error e
  | some (_, _) => .error .typeError
  | none => .ok (ActiveFailover.buildActive afo data)

/-- An HTTP request issued through the session. -/
structure Request where
  path : String
  method : String
  body : List (String × JVal)

/-- `ActiveFailover._post` (source lines 164-186): store the creation arguments,
set the passed monitor's `zone`/`fqdn` back-references from the parent, POST
`self.api_args` to the resource path, then rebuild local state from
`response['data']` (passed in as `responseData`). Returns the issued request
together with the rebuilt state. -/
def ActiveFailover._post (afo : ActiveFailover)
    (address failover_mode failover_data : JVal) (monitor : HealthMonitor)
    (contact_nickname auto_recover notify_events syslog_server syslog_port
     syslog_ident syslog_facility ttl : JVal)
    (responseData : List (String × JVal)) :
    Except PyError (Request × ActiveFailover) :=
  let monitor1 : HealthMonitor :=
    { monitor with zone := .s afo.zone, fqdn := .s afo.fqdn }
  let afo1 : ActiveFailover :=
    { afo with
      address := address, failover_mode := failover_mode,
      failover_data := failover_data, monitor := monitor1,
      contact_nickname := contact_nickname, auto_recover := auto_recover,
      notify_events := notify_events, syslog_server := syslog_server,
      syslog_port := syslog_port, syslog_ident := syslog_ident,
      syslog_facility := syslog_facility, ttl := ttl }
  let req : Request :=
    { path := ActiveFailover.uriOf afo.zone afo.fqdn, method := "POST",
      body := afo1.api_args }
  match afo1._build responseData with
  | .ok afo2 => .ok (req, afo2)
  | .error e => .error e

theorem setField_monitor (afo : ActiveFailover) (k : String) (v : JVal) :
    (afo.setField k v).monitor = afo.monitor := by
  unfold ActiveFailover.setField
  simp only [apply_ite (fun a : ActiveFailover => a.monitor), ite_self]

theorem setField_active (afo : ActiveFailover) (k : String) (v : JVal) :
    (afo.setField k v).active = afo.active := by
  unfold ActiveFailover.setField
  simp only [apply_ite (fun a : ActiveFailover => a.active), ite_self]

theorem baseBuild_monitor : ∀ (data : List (String × JVal))
    (afo : ActiveFailover), (afo.baseBuild data).monitor = afo.monitor
  | [], _ => rfl
  | hd :: tl, afo => by
    show ((afo.setField hd.1 hd.2).baseBuild tl).monitor = _
    rw [baseBuild_monitor tl, setField_monitor]

theorem baseBuild_active : ∀ (data : List (String × JVal))
    (afo : ActiveFailover), (afo.baseBuild data).active = afo.active
  | [], _ => rfl
  | hd :: tl, afo => by
    show ((afo.setField hd.1 hd.2).baseBuild tl).active = _
    rw [baseBuild_active tl, setField_active]

theorem buildActive_monitor (afo : ActiveFailover)
    (data : List (String × JVal)) :
    (afo.buildActive data).monitor = afo.monitor := by
  unfold ActiveFailover.buildActive
  split <;> rw [baseBuild_monitor]

theorem buildActive_active_some (afo : ActiveFailover)
    (data : List (String × JVal)) (v : JVal) (rest2 : List (String × JVal))
    (h : apop data "active" = some (v, rest2)) :
    (afo.buildActive data).active = some (Active.ofVal v) := by
  unfold ActiveFailover.buildActive
  simp only [h, baseBuild_active]

theorem buildActive_active_none (afo : ActiveFailover)
    (data : List (String × JVal)) (h : apop data "active" = none) :
    (afo.buildActive data).active = afo.active := by
  unfold ActiveFailover.buildActive
  simp only [h, baseBuild_active]

theorem fromKwargs_fields (d : List (String × JVal)) (m : HealthMonitor)
    (h : HealthMonitor.fromKwargs d = .ok m) :
    m.protocol = (alookup d "protocol").getD .null ∧
    m.interval = (alookup d "interval").getD .null ∧
    m.retries = (alookup d "retries").getD .null ∧
    m.timeout = (alookup d "timeout").getD .null ∧
    m.port = (alookup d "port").getD .null ∧
    m.path = (alookup d "path").getD .null ∧
    m.host = (alookup d "host").getD .null ∧
    m.header = (alookup d "header").getD .null ∧
    m.expected = (alookup d "expected").getD .null ∧
    m.zone = .null ∧ m.fqdn = .null := by
  unfold HealthMonitor.fromKwargs at h
  split at h
  · split at h
    next p i hp hi =>
      injection h with h2
      subst h2
      simp [hp, hi]
    next => exact absurd h (by simp)
  · exact absurd h (by simp)

/-- C8: building from a response body whose `monitor` sub-object is a valid
keyword set yields an owned `HealthMonitor` whose fields equal the sub-object's
corresponding keys (unset keys defaulting to `None`) with unset back-references;
an `active` field in the body is wrapped into the `Active` representation on the
built object. -/
theorem build_roundtrip (afo : ActiveFailover)
    (data rest sub : List (String × JVal)) (m : HealthMonitor)
    (hpop : apop data "monitor" = some (.obj sub, rest))
    (hkw : HealthMonitor.fromKwargs sub = .ok m) :
    ∃ afo1, afo._build data = .ok afo1 ∧ afo1.monitor = m ∧
      m.protocol = (alookup sub "protocol").getD .null ∧
      m.interval = (alookup sub "interval").getD .null ∧
      m.retries = (alookup sub "retries").getD .null ∧
      m.timeout = (alookup sub "timeout").getD .null ∧
      m.port = (alookup sub "port").getD .null ∧
      m.path = (alookup sub "path").getD .null ∧
      m.host = (alookup sub "host").getD .null ∧
      m.header = (alookup sub "header").getD .null ∧
      m.expected = (alookup sub "expected").getD .null ∧
      m.zone = .null ∧ m.fqdn = .null ∧
      (∀ v rest2, apop rest "active" = some (v, rest2) →
         afo1.active = some (Active.ofVal v)) ∧
      (apop rest "active" = none → afo1.active = afo.active) := by
  obtain ⟨h1, h2, h3, h4, h5, h6, h7, h8, h9, h10, h11⟩ :=
    fromKwargs_fields sub m hkw
  refine ⟨ActiveFailover.buildActive { afo with monitor := m } rest, ?_,
    buildActive_monitor _ _, h1, h2, h3, h4, h5, h6, h7, h8, h9, h10, h11,
    ?_, ?_⟩
  · unfold ActiveFailover._build
    simp only [hpop, hkw]
  · intro v rest2 hact
    rw [buildActive_active_some _ _ _ _ hact]
  · intro hact
    rw [buildActive_active_none _ _ hact]

/-- Concrete response body (the `data` sub-object) with a monitor sub-object and
an active flag, for the C8 witness. -/
def dataW : List (String × JVal) :=
  [("monitor", .obj [("protocol", .s "HTTP"), ("interval", .n 5)]),
   ("active", .s "Y"), ("address", .s "1.2.3.4")]

/-- Witness for C8: building from the concrete body succeeds and installs the
monitor described by the sub-object. -/
theorem build_roundtrip_witness :
    ∃ afo1, afo0._build dataW = .ok afo1 ∧ afo1.monitor = hm0 :=
  (build_roundtrip afo0 dataW [("active", .s "Y"), ("address", .s "1.2.3.4")]
      [("protocol", .s "HTTP"), ("interval", .n 5)] hm0 rfl rfl).elim
    (fun afo1 h => ⟨afo1, h.1, h.2.1⟩)

/-- C4 counterexample: at a concrete create whose response body carries a
`monitor` sub-object, the owned monitor after the rebuild has `zone`/`fqdn`
equal to `None` — `_build` replaced the monitor whose back-references `_post`
had just set — not the parent's `"example.com"`/`"www.example.com"`, refuting
the claimed post-condition. -/
theorem post_backrefs_cex :
    (afo0._post (.s "1.2.3.4") (.s "ip") (.s "5.6.7.8") hm0 (.s "owner")
        .null .null .null .null .null .null .null
        [("monitor", .obj [("protocol", .s "HTTP"), ("interval", .n 5)])]).map
      (fun r => (r.2.monitor.zone, r.2.monitor.fqdn))
      = .ok (JVal.null, JVal.null) ∧
    JVal.null ≠ JVal.s afo0.zone ∧ JVal.null ≠ JVal.s afo0.fqdn :=
  ⟨rfl, fun h => JVal.noConfusion h, fun h => JVal.noConfusion h⟩

/-- C4 (amended): `create` issues a POST to `/Failover/{zone}/{fqdn}/` whose
payload is assembled from its arguments with the monitor serialized via
`to_json()` after receiving the parent's `zone`/`fqdn` back-references; after the
rebuild, the owned monitor keeps those back-references exactly when the response
body carries no `monitor` sub-object — when it does, the owned monitor is the one
rebuilt from the sub-object and its back-references are unset. -/
theorem post_spec (afo : ActiveFailover)
    (address failover_mode failover_data : JVal) (monitor : HealthMonitor)
    (contact_nickname auto_recover notify_events syslog_server syslog_port
     syslog_ident syslog_facility ttl : JVal)
    (resp : List (String × JVal)) (req : Request) (afo2 : ActiveFailover)
    (h : afo._post address failover_mode failover_data monitor contact_nickname
           auto_recover notify_events syslog_server syslog_port syslog_ident
           syslog_facility ttl resp = .ok (req, afo2)) :
    req.path = ActiveFailover.uriOf afo.zone afo.fqdn ∧
    req.method = "POST" ∧
    req.body = [("address", address), ("failover_mode", failover_mode),
      ("failover_data", failover_data),
      ("monitor", .obj ({ monitor with
        zone := .s afo.zone,
        fqdn := .s afo.fqdn } : HealthMonitor).to_json),
      ("contact_nickname", contact_nickname)] ∧
    (apop resp "monitor" = none →
       afo2.monitor = { monitor with
         zone := .s afo.zone,
         fqdn := .s afo.fqdn }) ∧
    (∀ sub rest m, apop resp "monitor" = some (.obj sub, rest) →
       HealthMonitor.fromKwargs sub = .ok m →
       afo2.monitor = m ∧ m.zone = JVal.null ∧ m.fqdn = JVal.null) := by
  simp only [ActiveFailover._post] at h
  split at h
  next afoB heq =>
    injection h with h2
    injection h2 with hreq hafo
    subst hreq
    subst hafo
    refine ⟨rfl, rfl, rfl, ?_, ?_⟩
    · intro hnone
      simp only [ActiveFailover._build, hnone] at heq
      injection heq with h3
      rw [← h3, buildActive_monitor]
    · intro sub rest mm hp hk
      simp only [ActiveFailover._build, hp, hk] at heq
      injection heq with h3
      obtain ⟨-, -, -, -, -, -, -, -, -, hz, hf⟩ := fromKwargs_fields sub mm hk
      exact ⟨by rw [← h3, buildActive_monitor], hz, hf⟩
  next e heq => exact absurd h (by simp)

/-- Concrete request produced by the witness create call. -/
def reqW : Request :=
  { path := "/Failover/example.com/www.example.com/", method := "POST",
    body := [("address", .s "1.2.3.4"), ("failover_mode", .s "ip"),
             ("failover_data", .s "5.6.7.8"),
             ("monitor", .obj [("protocol", .s "HTTP"), ("interval", .n 5)]),
             ("contact_nickname", .s "owner")] }

/-- Concrete state after the witness create call (response body empty, so the
monitor keeps the back-references set by `_post`). -/
def afoPW : ActiveFailover :=
  { afo0 with
    address := .s "1.2.3.4", failover_mode := .s "ip",
    failover_data := .s "5.6.7.8", monitor := hmW,
    contact_nickname := .s "owner" }

/-- Witness for C4 (amended): a concrete create against zone `example.com` /
fqdn `www.example.com` with an empty response body issues the expected POST and
leaves the owned monitor carrying the parent back-references. -/
theorem post_spec_witness :
    reqW.path = ActiveFailover.uriOf "example.com" "www.example.com" ∧
    reqW.method = "POST" ∧
    afoPW.monitor.zone = .s "example.com" ∧
    afoPW.monitor.fqdn = .s "www.example.com" := by
  have h := post_spec afo0 (.s "1.2.3.4") (.s "ip") (.s "5.6.7.8") hm0
    (.s "owner") .null .null .null .null .null .null .null [] reqW afoPW rfl
  refine ⟨h.1, h.2.1, ?_, ?_⟩
  · rw [h.2.2.2.1 rfl]; rfl
  · rw [h.2.2.2.1 rfl]; rfl

end Dyn
